import Mathlib

/-!
Verification of the FTH command-line front-end (src/cli.py) against its
specification. The CLI wraps an external Task Service Client; we embed the
CLI's own logic (credential resolution, payload construction, dispatch,
serialization, error formatting) as executable Lean definitions, with the
external collaborators (client, JobNames enumeration, JSON parser) as
explicit parameters.
-/

namespace Cli

/-- Python values as they flow through the CLI: JSON scalars, lists and
dicts, plus opaque objects returned by the external client. An object
carries a flag for whether it exposes a structured-export capability
(a model_dump method) and its plain attribute mapping. -/
inductive PyVal where
  | null
  | bool (b : Bool)
  | int (n : Int)
  | str (s : String)
  | list (xs : List PyVal)
  | dict (fs : List (String × PyVal))
  | object (hasModelDump : Bool) (attrs : List (String × PyVal))

mutual

/-- json.dumps succeeds exactly on values containing no opaque object. -/
def isJsonSerializable : PyVal → Bool
  | .null => true
  | .bool _ => true
  | .int _ => true
  | .str _ => true
  | .list xs => allSerializable xs
  | .dict fs => allSerializableFields fs
  | .object _ _ => false

def allSerializable : List PyVal → Bool
  | [] => true
  | x :: xs => isJsonSerializable x && allSerializable xs

def allSerializableFields : List (String × PyVal) → Bool
  | [] => true
  | (_, v) :: fs => isJsonSerializable v && allSerializableFields fs

end

/-- A Python exception as the error formatter sees it: its message, an
optional status_code attribute (None and absent behave identically under
getattr with a None default, so both are `none`), and an optional response
attribute carrying its own optional status_code. -/
structure PyError where
  message : String
  status_code : Option Int
  response : Option (Option Int)
deriving DecidableEq, Repr

/-- The status codes the guide documents (cli.py line 47). -/
def knownCodes : List Int := [400, 401, 403, 429, 500, 503]

/-- Status-code extraction inside handle_http_error: first the exception
itself, then, only when that gave None, the nested response attribute. -/
def extractStatus (e : PyError) : Option Int :=
  match e.status_code with
  | some c => some c
  | none =>
    match e.response with
    | some rsc => rsc
    | none => none

/-- handle_http_error (cli.py lines 37-50): returns the line printed to
the error stream. -/
def handle_http_error (e : PyError) : String :=
  let message := e.message
  match extractStatus e with
  | some status =>
    if status ∈ knownCodes then
      "Error " ++ toString status ++ ": " ++ message
    else
      "Error: " ++ message
  | none => "Error: " ++ message

/-- Python truthiness of a click option holding an optional string:
None and the empty string are falsy. -/
def truthyStr : Option String → Bool
  | none => false
  | some s => !(s = "")

/-- Python truthiness of a click option holding an optional integer:
None and 0 are falsy. -/
def truthyInt : Option Int → Bool
  | none => false
  | some n => !(n = 0)

/-- The message of the click.BadParameter raised by get_api_key
(cli.py lines 22-24). -/
def apiKeyMissingMsg : String :=
  "API key not provided. Use --api-key option or set FUTUREHOUSE_API_KEY environment variable"

/-- get_api_key (cli.py lines 18-25). The first argument is the --api-key
option value; the second is the FUTUREHOUSE_API_KEY environment variable.
The click group option itself already reads the same environment variable
(cli.py line 54), and `api_key_option or os.getenv(...)` inside get_api_key
reads it again; the composite behavior is: a truthy option value wins,
otherwise a truthy environment value, otherwise BadParameter. -/
def get_api_key (api_key_option envKey : Option String) : Except String String :=
  if truthyStr api_key_option then .ok (api_key_option.getD "")
  else if truthyStr envKey then .ok (envKey.getD "")
  else .error apiKeyMissingMsg

/-- The RuntimeError message of create_client when the futurehouse_client
package is absent (cli.py lines 31-33). -/
def libMissingMsg : String :=
  "futurehouse-client package is not installed. Install it via pip install futurehouse-client"

/-- Which external client capability a dispatch step invoked over the
network. -/
inductive NetCall where
  | createTask
  | runTasks
  | arunTasks
  | getStatus
  | getResult
  | getTask
deriving DecidableEq

/-- What a command invocation prints or raises. click.echo on stdout is
split into plain echo (the create command) and a successful json.dumps;
stderrLine is the line handle_http_error prints; badParameter is a raised
click.BadParameter (a user-input usage error rendered by click); raised is
any other exception propagating out of the command uncaught. -/
inductive Outcome where
  | echoed (v : PyVal)
  | stdoutJson (v : PyVal)
  | stderrLine (s : String)
  | badParameter (msg : String)
  | raised (msg : String)

/-- The observable effect of one command invocation: its printed/raised
outcome, whether a FutureHouseClient was constructed, and which network
capabilities were invoked, in order. -/
structure Exec where
  outcome : Outcome
  clientConstructed : Bool
  calls : List NetCall

/-- The external Task Service Client, as an oracle: each capability either
returns a value or raises. has_get_task_result models whether the installed
client version exposes get_task_result at all (an absent attribute raises
AttributeError at the call site); has_get_task likewise for the legacy
accessor. -/
structure Client where
  create_task : PyVal → Except PyError PyVal
  run_tasks_until_done : PyVal → Bool → Except PyError PyVal
  arun_tasks_until_done : PyVal → Bool → Except PyError PyVal
  get_task_status : String → Except PyError PyVal
  has_get_task_result : Bool
  get_task_result : String → Except PyError PyVal
  has_get_task : Bool
  get_task : String → Except PyError PyVal

/-- Insert or overwrite one key in a Python dict modelled as an
association list (keys unique by construction, insertion order kept,
overwriting preserves the position of an existing key), the semantics of a
Python dict item assignment. -/
def setKey : List (String × PyVal) → String → PyVal → List (String × PyVal)
  | [], k, v => [(k, v)]
  | (k1, v1) :: fs, k, v =>
    if k1 = k then (k, v) :: fs else (k1, v1) :: setKey fs k v

/-- Python dict lookup on the association-list model. -/
def getKey : List (String × PyVal) → String → Option PyVal
  | [], _ => none
  | (k1, v1) :: fs, k => if k1 = k then some v1 else getKey fs k

/-- dict.update: apply the new bindings left to right. -/
def dictMerge (base adds : List (String × PyVal)) : List (String × PyVal) :=
  adds.foldl (fun acc p => setKey acc p.1 p.2) base

/-- The external JobNames enumeration (cli.py lines 11-15, 88-92):
either absent (import failed, JobNames is None), an enumeration without a
from_string attribute (resolved by getattr with the name itself as
default), or one exposing from_string, an opaque external function that may
itself raise. -/
inductive JobNamesModel where
  | absent
  | enumOnly (members : List (String × PyVal))
  | withFromString (from_string : String → Except String PyVal)

/-- The job_name expression (cli.py lines 88-92, repeated verbatim in run
and async_run): JobNames.from_string(name) when JobNames is truthy and has
from_string, else getattr(JobNames, name, name). getattr on None or on an
enumeration lacking the member falls back to the name string verbatim. -/
def resolveJobName : JobNamesModel → String → Except String PyVal
  | .absent, name => .ok (.str name)
  | .enumOnly members, name => .ok ((getKey members name).getD (.str name))
  | .withFromString fs, name => fs name

/-- The process environment of one invocation: the --api-key option value
(as click passed it to the group callback, before its own envvar fallback
is considered separately), the FUTUREHOUSE_API_KEY variable, whether the
futurehouse_client import succeeded, the JobNames collaborator, and the
client that FutureHouseClient(api_key=...) would yield. -/
structure Env where
  apiKeyOpt : Option String
  envKey : Option String
  libAvailable : Bool
  jobNames : JobNamesModel
  client : Client

/-- The shared prefix of every command: get_api_key then create_client.
On failure nothing later runs: a BadParameter for a missing key, an
uncaught RuntimeError for a missing library; the client is constructed only
when both succeed. -/
def preamble (env : Env) : Except Outcome Client :=
  match get_api_key env.apiKeyOpt env.envKey with
  | .error m => .error (.badParameter m)
  | .ok _ =>
    if env.libAvailable then .ok env.client
    else .error (.raised libMissingMsg)

/-- An error escaping the payload-construction stage: a raised
click.BadParameter or some other uncaught exception. -/
inductive StageErr where
  | badParam (msg : String)
  | exn (msg : String)

/-- The runtime_config construction shared verbatim by create, run and
async_run (cli.py lines 74-86, 120-132, 168-180): start empty, update from
the --runtime-config JSON when that option is truthy (a parse failure
raises BadParameter), then conditionally insert each individual option
under Python truthiness (an empty continued-task-id, a zero timeout or a
zero max-steps are all skipped). `parse` stands for json.loads. A valid
JSON value that is not an object would make dict.update raise; the exact
CPython message is abstracted. -/
def buildRuntimeConfig (parse : String → Except String PyVal)
    (runtime_config_json continued_task_id : Option String)
    (timeout max_steps : Option Int) :
    Except StageErr (List (String × PyVal)) :=
  let step0 : Except StageErr (List (String × PyVal)) :=
    if truthyStr runtime_config_json then
      match parse (runtime_config_json.getD "") with
      | .ok (.dict fs) => .ok (dictMerge [] fs)
      | .ok _ => .error (.exn "dict update requires a mapping")
      | .error m => .error (.badParam ("Invalid JSON for runtime-config: " ++ m))
    else .ok []
  match step0 with
  | .error e => .error e
  | .ok rc0 =>
    let rc1 := if truthyStr continued_task_id then
        setKey rc0 "continued_task_id" (.str (continued_task_id.getD ""))
      else rc0
    let rc2 := if truthyInt timeout then
        setKey rc1 "timeout" (.int (timeout.getD 0))
      else rc1
    let rc3 := if truthyInt max_steps then
        setKey rc2 "max_steps" (.int (max_steps.getD 0))
      else rc2
    .ok rc3

/-- The task_data dict (cli.py lines 93-98, 139-144, 187-192): the id key
is always present, None when --task-id was not given; runtime_config is
the built dict, or None when that dict is empty (`runtime_config or
None`). -/
def task_data (job_name : PyVal) (query : String) (task_id : Option String)
    (rc : List (String × PyVal)) : PyVal :=
  .dict [("name", job_name),
         ("query", .str query),
         ("id", match task_id with | none => .null | some s => .str s),
         ("runtime_config", if rc.isEmpty then .null else .dict rc)]

/-- Look a key up in a modelled dict; none when the value is not a dict or
the key is absent. -/
def lookupField (v : PyVal) (k : String) : Option PyVal :=
  match v with
  | .dict fs => getKey fs k
  | _ => none

/-- The TypeError json.dumps raises on a non-serializable object. Its
exact CPython message names the offending type; the text is abstracted
here. It carries no status_code and no response. -/
def dumpTypeError : PyError :=
  { message := "Object is not JSON serializable", status_code := none, response := none }

/-- click.echo(json.dumps(v, ensure_ascii=False, indent=2)) inside a
try/except Exception block: prints the JSON text of v on stdout when v is
serializable; otherwise the TypeError is caught by the same handler as
client errors. -/
def echoJson (v : PyVal) : Outcome :=
  if isJsonSerializable v then .stdoutJson v
  else .stderrLine (handle_http_error dumpTypeError)

/-- The payload-construction stage shared verbatim by create, run and
async_run: runtime_config (BadParameter on malformed JSON), then job-name
resolution (a from_string exception propagates uncaught, before the try
block), then task_data. -/
def buildTaskData (env : Env) (parse : String → Except String PyVal)
    (name query : String) (task_id continued_task_id : Option String)
    (timeout max_steps : Option Int) (runtime_config_json : Option String) :
    Except StageErr PyVal :=
  match buildRuntimeConfig parse runtime_config_json continued_task_id timeout max_steps with
  | .error e => .error e
  | .ok rc =>
    match resolveJobName env.jobNames name with
    | .error m => .error (.exn m)
    | .ok job_name => .ok (task_data job_name query task_id rc)

/-- Turn a stage error into the command outcome: BadParameter stays a
usage error, anything else propagates as an uncaught exception. -/
def stageOutcome : StageErr → Outcome
  | .badParam m => .badParameter m
  | .exn m => .raised m

/-- The create command (cli.py lines 61-103): resolve the key, construct
the client, build the payload, then dispatch create_task inside try/except
and echo the returned id plainly (no json.dumps). -/
def create (env : Env) (parse : String → Except String PyVal)
    (name query : String) (task_id continued_task_id : Option String)
    (timeout max_steps : Option Int) (runtime_config_json : Option String) :
    Exec :=
  match preamble env with
  | .error out => { outcome := out, clientConstructed := false, calls := [] }
  | .ok client =>
    match buildTaskData env parse name query task_id continued_task_id
        timeout max_steps runtime_config_json with
    | .error e => { outcome := stageOutcome e, clientConstructed := true, calls := [] }
    | .ok td =>
      match client.create_task td with
      | .ok v =>
        { outcome := .echoed v, clientConstructed := true, calls := [.createTask] }
      | .error e =>
        { outcome := .stderrLine (handle_http_error e), clientConstructed := true,
          calls := [.createTask] }

/-- The run command (cli.py lines 106-149): like create, but dispatches
run_tasks_until_done with the verbose flag and prints the response through
json.dumps inside the same try/except. -/
def run (env : Env) (parse : String → Except String PyVal)
    (name query : String) (task_id continued_task_id : Option String)
    (timeout max_steps : Option Int) (runtime_config_json : Option String)
    (verbose : Bool) : Exec :=
  match preamble env with
  | .error out => { outcome := out, clientConstructed := false, calls := [] }
  | .ok client =>
    match buildTaskData env parse name query task_id continued_task_id
        timeout max_steps runtime_config_json with
    | .error e => { outcome := stageOutcome e, clientConstructed := true, calls := [] }
    | .ok td =>
      match client.run_tasks_until_done td verbose with
      | .ok v =>
        { outcome := echoJson v, clientConstructed := true, calls := [.runTasks] }
      | .error e =>
        { outcome := .stderrLine (handle_http_error e), clientConstructed := true,
          calls := [.runTasks] }

/-- The arun command (cli.py lines 152-201, function async_run): identical
to run except the dispatch goes through asyncio.run on
arun_tasks_until_done; the CLI still blocks until the call resolves. -/
def async_run (env : Env) (parse : String → Except String PyVal)
    (name query : String) (task_id continued_task_id : Option String)
    (timeout max_steps : Option Int) (runtime_config_json : Option String)
    (verbose : Bool) : Exec :=
  match preamble env with
  | .error out => { outcome := out, clientConstructed := false, calls := [] }
  | .ok client =>
    match buildTaskData env parse name query task_id continued_task_id
        timeout max_steps runtime_config_json with
    | .error e => { outcome := stageOutcome e, clientConstructed := true, calls := [] }
    | .ok td =>
      match client.arun_tasks_until_done td verbose with
      | .ok v =>
        { outcome := echoJson v, clientConstructed := true, calls := [.arunTasks] }
      | .error e =>
        { outcome := .stderrLine (handle_http_error e), clientConstructed := true,
          calls := [.arunTasks] }

/-- The batch command (cli.py lines 204-218, function run_batch): read and
json.load the file (a decode failure propagates uncaught, before the try
block and before any client call), dispatch run_tasks_until_done on the
loaded value, print the responses as JSON. `fileContents` is the text of
the file named by --file (click already checked existence). -/
def run_batch (env : Env) (parse : String → Except String PyVal)
    (fileContents : String) (verbose : Bool) : Exec :=
  match preamble env with
  | .error out => { outcome := out, clientConstructed := false, calls := [] }
  | .ok client =>
    match parse fileContents with
    | .error m => { outcome := .raised m, clientConstructed := true, calls := [] }
    | .ok tasks =>
      match client.run_tasks_until_done tasks verbose with
      | .ok v =>
        { outcome := echoJson v, clientConstructed := true, calls := [.runTasks] }
      | .error e =>
        { outcome := .stderrLine (handle_http_error e), clientConstructed := true,
          calls := [.runTasks] }

/-- The abatch command (cli.py lines 221-242, function async_batch):
identical to batch through the concurrent execution path. -/
def async_batch (env : Env) (parse : String → Except String PyVal)
    (fileContents : String) (verbose : Bool) : Exec :=
  match preamble env with
  | .error out => { outcome := out, clientConstructed := false, calls := [] }
  | .ok client =>
    match parse fileContents with
    | .error m => { outcome := .raised m, clientConstructed := true, calls := [] }
    | .ok tasks =>
      match client.arun_tasks_until_done tasks verbose with
      | .ok v =>
        { outcome := echoJson v, clientConstructed := true, calls := [.arunTasks] }
      | .error e =>
        { outcome := .stderrLine (handle_http_error e), clientConstructed := true,
          calls := [.arunTasks] }

/-- The status command (cli.py lines 245-259): dispatch get_task_status
and print the JSON, any exception going to handle_http_error. -/
def status (env : Env) (task_id : String) : Exec :=
  match preamble env with
  | .error out => { outcome := out, clientConstructed := false, calls := [] }
  | .ok client =>
    match client.get_task_status task_id with
    | .ok v =>
      { outcome := echoJson v, clientConstructed := true, calls := [.getStatus] }
    | .error e =>
      { outcome := .stderrLine (handle_http_error e), clientConstructed := true,
        calls := [.getStatus] }

/-- The AttributeError raised when the installed client lacks
get_task_result; the exact CPython wording is abstracted. It carries no
status_code and no response. -/
def attrNotFoundError : PyError :=
  { message := "FutureHouseClient object has no attribute get_task_result",
    status_code := none, response := none }

/-- The result command (cli.py lines 262-276): dispatch get_task_result
inside try/except and print the JSON. There is no fallback of any kind:
when the attribute is absent, the AttributeError is caught by the same
generic handler, and get_task is never consulted. -/
def result (env : Env) (task_id : String) : Exec :=
  match preamble env with
  | .error out => { outcome := out, clientConstructed := false, calls := [] }
  | .ok client =>
    if client.has_get_task_result then
      match client.get_task_result task_id with
      | .ok v =>
        { outcome := echoJson v, clientConstructed := true, calls := [.getResult] }
      | .error e =>
        { outcome := .stderrLine (handle_http_error e), clientConstructed := true,
          calls := [.getResult] }
    else
      { outcome := .stderrLine (handle_http_error attrNotFoundError),
        clientConstructed := true, calls := [] }

mutual

/-- Modelled from the spec: the serialization rule of section 4.4, which
src/cli.py does not contain (responses go to json.dumps directly).
Sequences convert element-wise; an object exposing a structured-export
capability exports its structure; otherwise an object exposes its plain
attribute mapping; anything else passes through as-is. -/
def specSerialize : PyVal → PyVal
  | .list xs => .list (specSerializeList xs)
  | .object _ attrs => .dict (specSerializeFields attrs)
  | v => v

def specSerializeList : List PyVal → List PyVal
  | [] => []
  | x :: xs => specSerialize x :: specSerializeList xs

def specSerializeFields : List (String × PyVal) → List (String × PyVal)
  | [] => []
  | (k, v) :: fs => (k, specSerialize v) :: specSerializeFields fs

end

/-- Modelled from the spec: the result command with the legacy fallback
that sections 4.4 and 8 describe but src/cli.py does not implement — on an
attribute-not-found condition from get_task_result, when a legacy get_task
accessor exists, print its JSON-serialized result (or a JSON null if
unavailable). -/
def spec_result_with_fallback (env : Env) (task_id : String) : Exec :=
  match preamble env with
  | .error out => { outcome := out, clientConstructed := false, calls := [] }
  | .ok client =>
    if client.has_get_task_result then
      match client.get_task_result task_id with
      | .ok v =>
        { outcome := echoJson v, clientConstructed := true, calls := [.getResult] }
      | .error e =>
        { outcome := .stderrLine (handle_http_error e), clientConstructed := true,
          calls := [.getResult] }
    else if client.has_get_task then
      match client.get_task task_id with
      | .ok v =>
        { outcome := echoJson v, clientConstructed := true, calls := [.getTask] }
      | .error _ =>
        { outcome := .stdoutJson .null, clientConstructed := true, calls := [.getTask] }
    else
      { outcome := .stderrLine (handle_http_error attrNotFoundError),
        clientConstructed := true, calls := [] }

/-- Whether an outcome printed JSON on stdout. -/
def Outcome.isStdoutJson : Outcome → Bool
  | .stdoutJson _ => true
  | _ => false

/-- Whether an outcome is a raised click.BadParameter, the rendering of a
user-input error. -/
def Outcome.isBadParameter : Outcome → Bool
  | .badParameter _ => true
  | _ => false

/-! Concrete fixtures used by the witnesses and counterexamples. -/

/-- A client whose every capability returns the given value. -/
def constClient (v : PyVal) : Client :=
  { create_task := fun _ => .ok v
    run_tasks_until_done := fun _ _ => .ok v
    arun_tasks_until_done := fun _ _ => .ok v
    get_task_status := fun _ => .ok v
    has_get_task_result := true
    get_task_result := fun _ => .ok v
    has_get_task := false
    get_task := fun _ => .ok .null }

/-- A legacy client: get_task_result is absent (calling it raises
AttributeError) while the legacy get_task accessor exists and succeeds. -/
def legacyClient : Client :=
  { constClient (.str "modern") with
    has_get_task_result := false
    has_get_task := true
    get_task := fun _ => .ok (.str "legacy-result") }

/-- A client raising the given error from every capability. -/
def errClient (e : PyError) : Client :=
  { create_task := fun _ => .error e
    run_tasks_until_done := fun _ _ => .error e
    arun_tasks_until_done := fun _ _ => .error e
    get_task_status := fun _ => .error e
    has_get_task_result := true
    get_task_result := fun _ => .error e
    has_get_task := false
    get_task := fun _ => .error e }

/-- An environment with a valid key, available library, and the given
collaborators. -/
def mkEnv (jn : JobNamesModel) (c : Client) : Env :=
  { apiKeyOpt := some "key", envKey := none, libAvailable := true,
    jobNames := jn, client := c }

/-- An environment with neither --api-key nor FUTUREHOUSE_API_KEY. -/
def envNoKey : Env :=
  { apiKeyOpt := none, envKey := none, libAvailable := true,
    jobNames := .absent, client := constClient .null }

/-- The CPython message for an unparsable JSON document. -/
def jsonErrMsg : String := "Expecting value: line 1 column 1 (char 0)"

/-- A json.loads oracle that always fails. -/
def parseFailAlways : String → Except String PyVal :=
  fun _ => .error jsonErrMsg

/-- A json.loads oracle never consulted by the scenarios that use it. -/
def parseUnused : String → Except String PyVal :=
  fun _ => .error "unused"

/-- A json.loads oracle returning a runtime-config object that already
binds timeout. -/
def parseTimeout5 : String → Except String PyVal :=
  fun _ => .ok (.dict [("timeout", .int 5)])

/-- An object exposing the structured-export capability. -/
def objVal : PyVal := .object true [("x", .int 1)]

/-- An error carrying status code 429 (in the known set). -/
def pe429 : PyError := { message := "boom", status_code := some 429, response := none }

/-- An error carrying status code 404 (not in the known set). -/
def pe404 : PyError := { message := "boom", status_code := some 404, response := none }

/-- An error with no status of its own whose nested response carries
503. -/
def peResp503 : PyError :=
  { message := "down", status_code := none, response := some (some 503) }

/-- A JobNames collaborator whose from_string maps every name to the CROW
member. -/
def jnAllCrow : JobNamesModel := .withFromString (fun _ => .ok (.str "CROW"))

/-- A JobNames collaborator whose from_string raises on every name. -/
def jnRaising : JobNamesModel :=
  .withFromString (fun n => .error ("Invalid job name " ++ n))

/-- A client echoing the submitted payload back from the batch
capabilities: one result per task, in order. -/
def batchEchoClient : Client :=
  { constClient .null with
    run_tasks_until_done := fun v _ => .ok v
    arun_tasks_until_done := fun v _ => .ok v }

/-- A json.loads oracle returning a two-task batch array. -/
def parseListTwo : String → Except String PyVal :=
  fun _ => .ok (.list [.str "t1", .str "t2"])

/-! Helper lemmas about the dict model. -/

theorem getKey_setKey_self (fs : List (String × PyVal)) (k : String) (v : PyVal) :
    getKey (setKey fs k v) k = some v := by
  induction fs with
  | nil => simp [setKey, getKey]
  | cons p fs ih =>
    obtain ⟨k1, v1⟩ := p
    by_cases h : k1 = k
    · simp [setKey, getKey, h]
    · simp [setKey, getKey, h, ih]

theorem getKey_setKey_other (fs : List (String × PyVal)) (k1 : String) (v : PyVal)
    (k : String) (h : k1 ≠ k) : getKey (setKey fs k1 v) k = getKey fs k := by
  induction fs with
  | nil => simp [setKey, getKey, h]
  | cons p fs ih =>
    obtain ⟨k2, v2⟩ := p
    by_cases h2 : k2 = k1
    · subst h2
      simp [setKey, getKey, h]
    · simp [setKey, getKey, h2, ih]

/-- C4: for every exception raised by the dispatch step, the error
formatter takes the status code from the exception itself first and from
the nested response attribute only otherwise; a code in
{400, 401, 403, 429, 500, 503} renders as Error code colon message, and
every other case (including 404) as Error colon message, printed to the
error stream by the dispatching command. -/
theorem C4_error_formatter (env : Env) (tid : String) (e : PyError) (c : Int) :
    (e.status_code = some c → c ∈ knownCodes →
      handle_http_error e = "Error " ++ toString c ++ ": " ++ e.message)
    ∧ (e.status_code = some c → c ∉ knownCodes →
      handle_http_error e = "Error: " ++ e.message)
    ∧ (e.status_code = none → e.response = some (some c) → c ∈ knownCodes →
      handle_http_error e = "Error " ++ toString c ++ ": " ++ e.message)
    ∧ (e.status_code = none → e.response = some (some c) → c ∉ knownCodes →
      handle_http_error e = "Error: " ++ e.message)
    ∧ (extractStatus e = none → handle_http_error e = "Error: " ++ e.message)
    ∧ (truthyStr env.apiKeyOpt = true → env.libAvailable = true →
      env.client.get_task_status tid = .error e →
      (status env tid).outcome = .stderrLine (handle_http_error e)) := by
  refine ⟨?_, ?_, ?_, ?_, ?_, ?_⟩
  · intro h1 h2
    simp [handle_http_error, extractStatus, h1, h2]
  · intro h1 h2
    simp [handle_http_error, extractStatus, h1, h2]
  · intro h1 h2 h3
    simp [handle_http_error, extractStatus, h1, h2, h3]
  · intro h1 h2 h3
    simp [handle_http_error, extractStatus, h1, h2, h3]
  · intro h
    simp [handle_http_error, h]
  · intro hk hl he
    simp [status, preamble, get_api_key, hk, hl, he]

/-- Witness for C4 at concrete errors: a known code on the exception, an
unknown code, a known code only on the nested response, and a concrete
failing status dispatch. -/
theorem C4_error_formatter_witness :
    handle_http_error pe429 = "Error 429: boom"
    ∧ handle_http_error pe404 = "Error: boom"
    ∧ handle_http_error peResp503 = "Error 503: down"
    ∧ (status (mkEnv .absent (errClient pe429)) "bad-id").outcome
      = .stderrLine (handle_http_error pe429) := by
  refine ⟨?_, ?_, ?_, ?_⟩
  · exact (C4_error_formatter envNoKey "x" pe429 429).1 rfl (by decide)
  · exact (C4_error_formatter envNoKey "x" pe404 404).2.1 rfl (by decide)
  · exact (C4_error_formatter envNoKey "x" peResp503 503).2.2.1 rfl rfl (by decide)
  · exact (C4_error_formatter (mkEnv .absent (errClient pe429)) "bad-id" pe429
      429).2.2.2.2.2 (by decide) rfl rfl

/-- C6: with no API key from the option or the environment, every command
raises the BadParameter user-input error naming the missing configuration,
constructs no client and makes no network call. -/
theorem C6_missing_key_aborts (env : Env) (parse : String → Except String PyVal)
    (name query fileContents tidArg : String)
    (task_id continued_task_id runtime_config_json : Option String)
    (timeout max_steps : Option Int) (verbose : Bool)
    (hko : truthyStr env.apiKeyOpt = false) (hke : truthyStr env.envKey = false) :
    create env parse name query task_id continued_task_id timeout max_steps
        runtime_config_json
      = ⟨.badParameter apiKeyMissingMsg, false, []⟩
    ∧ run env parse name query task_id continued_task_id timeout max_steps
        runtime_config_json verbose
      = ⟨.badParameter apiKeyMissingMsg, false, []⟩
    ∧ async_run env parse name query task_id continued_task_id timeout max_steps
        runtime_config_json verbose
      = ⟨.badParameter apiKeyMissingMsg, false, []⟩
    ∧ run_batch env parse fileContents verbose
      = ⟨.badParameter apiKeyMissingMsg, false, []⟩
    ∧ async_batch env parse fileContents verbose
      = ⟨.badParameter apiKeyMissingMsg, false, []⟩
    ∧ status env tidArg = ⟨.badParameter apiKeyMissingMsg, false, []⟩
    ∧ result env tidArg = ⟨.badParameter apiKeyMissingMsg, false, []⟩ := by
  have hpre : preamble env = .error (.badParameter apiKeyMissingMsg) := by
    simp [preamble, get_api_key, hko, hke]
  refine ⟨?_, ?_, ?_, ?_, ?_, ?_, ?_⟩ <;>
    simp [create, run, async_run, run_batch, async_batch, status, result, hpre]

/-- Witness for C6 in an environment with neither credential source. -/
theorem C6_missing_key_aborts_witness :
    truthyStr envNoKey.apiKeyOpt = false
    ∧ status envNoKey "t" = ⟨.badParameter apiKeyMissingMsg, false, []⟩
    ∧ (create envNoKey parseUnused "CROW" "q" none none none none
        none).clientConstructed = false := by
  have h := C6_missing_key_aborts envNoKey parseUnused "CROW" "q" "file" "t"
    none none none none none false rfl rfl
  refine ⟨rfl, h.2.2.2.2.2.1, ?_⟩
  rw [h.1]

/-- C8: a batch file parsing to an array of N tasks, dispatched to a
client that returns one result per task in order, prints the JSON array of
exactly those N results, order preserved. -/
theorem C8_batch_order_preserved (env : Env) (parse : String → Except String PyVal)
    (fileContents : String) (verbose : Bool) (ts rs : List PyVal) (f : PyVal → PyVal)
    (hk : truthyStr env.apiKeyOpt = true) (hl : env.libAvailable = true)
    (hp : parse fileContents = .ok (.list ts))
    (hc : env.client.run_tasks_until_done (.list ts) verbose = .ok (.list rs))
    (hord : rs = ts.map f)
    (hser : isJsonSerializable (.list rs) = true) :
    (run_batch env parse fileContents verbose).outcome = .stdoutJson (.list rs)
    ∧ rs.length = ts.length := by
  constructor
  · simp [run_batch, preamble, get_api_key, hk, hl, hp, hc, echoJson, hser]
  · simp [hord]

/-- Witness for C8 on a concrete two-task batch through a client echoing
the payload. -/
theorem C8_batch_order_preserved_witness :
    (run_batch (mkEnv .absent batchEchoClient) parseListTwo "file" false).outcome
      = .stdoutJson (.list [.str "t1", .str "t2"]) := by
  have h := C8_batch_order_preserved (mkEnv .absent batchEchoClient) parseListTwo
    "file" false [.str "t1", .str "t2"] [.str "t1", .str "t2"] id
    (by decide) rfl rfl rfl rfl rfl
  exact h.1

/-- C10: every payload constructed by create, run or arun carries the id
key: bound to the supplied --task-id, and to None (not absent) when the
option was not supplied. -/
theorem C10_id_always_present (env : Env) (parse : String → Except String PyVal)
    (name query : String)
    (task_id continued_task_id runtime_config_json : Option String)
    (timeout max_steps : Option Int) (td : PyVal)
    (h : buildTaskData env parse name query task_id continued_task_id timeout
        max_steps runtime_config_json = .ok td) :
    lookupField td "id"
      = some (match task_id with | none => PyVal.null | some s => PyVal.str s)
    ∧ (lookupField td "id").isSome = true := by
  rcases hrc : buildRuntimeConfig parse runtime_config_json continued_task_id timeout
      max_steps with e | rc
  · simp [buildTaskData, hrc] at h
  · rcases hjn : resolveJobName env.jobNames name with m | jn
    · simp [buildTaskData, hrc, hjn] at h
    · simp [buildTaskData, hrc, hjn] at h
      subst h
      cases task_id <;> exact ⟨rfl, rfl⟩

/-- Witness for C10: a concrete payload with no --task-id carries id bound
to None. -/
theorem C10_id_always_present_witness :
    lookupField (task_data (.str "CROW") "q" none []) "id" = some PyVal.null := by
  have h := C10_id_always_present (mkEnv .absent (constClient .null)) parseUnused
    "CROW" "q" none none none none none _ rfl
  exact h.1

/-- C1 counterexample: the client lacks get_task_result but exposes a
legacy get_task returning a value; the result command prints the generic
error line to stderr, makes no call at all, and never prints the legacy
JSON result that the claim (and the spec-modelled fallback) predicts. -/
theorem C1_counterexample :
    (result (mkEnv .absent legacyClient) "t1").outcome
      = .stderrLine "Error: FutureHouseClient object has no attribute get_task_result"
    ∧ (result (mkEnv .absent legacyClient) "t1").calls = []
    ∧ (result (mkEnv .absent legacyClient) "t1").outcome.isStdoutJson = false
    ∧ (spec_result_with_fallback (mkEnv .absent legacyClient) "t1").outcome
      = .stdoutJson (.str "legacy-result") :=
  ⟨rfl, rfl, rfl, rfl⟩

/-- C1 amended: the result command performs no legacy fallback: when
get_task_result is unavailable, the AttributeError is caught by the
generic handler and printed as Error colon message to stderr, and no
client capability (in particular not get_task) is invoked. -/
theorem C1_amended_no_fallback (env : Env) (tid : String)
    (hk : truthyStr env.apiKeyOpt = true) (hl : env.libAvailable = true)
    (hng : env.client.has_get_task_result = false) :
    (result env tid).outcome = .stderrLine ("Error: " ++ attrNotFoundError.message)
    ∧ (result env tid).calls = [] := by
  constructor <;>
    simp [result, preamble, get_api_key, hk, hl, hng, handle_http_error,
      extractStatus, attrNotFoundError]

/-- Witness for C1 amended on the concrete legacy client. -/
theorem C1_amended_no_fallback_witness :
    (result (mkEnv .absent legacyClient) "t1").outcome
      = .stderrLine ("Error: " ++ attrNotFoundError.message) :=
  (C1_amended_no_fallback (mkEnv .absent legacyClient) "t1" (by decide) rfl rfl).1

/-- C2 counterexample: the status command receives an object exposing the
structured-export capability; the serialization rule of the spec would
yield a serializable mapping to print, but the code hands the object
directly to json.dumps, whose TypeError is reported as an error line on
stderr — nothing is printed to stdout. -/
theorem C2_counterexample :
    (status (mkEnv .absent (constClient objVal)) "t1").outcome
      = .stderrLine "Error: Object is not JSON serializable"
    ∧ (status (mkEnv .absent (constClient objVal)) "t1").outcome.isStdoutJson = false
    ∧ specSerialize objVal = .dict [("x", .int 1)]
    ∧ isJsonSerializable (specSerialize objVal) = true
    ∧ isJsonSerializable objVal = false :=
  ⟨rfl, rfl, rfl, rfl, rfl⟩

/-- C2 amended: run, arun, batch, abatch, status and result hand the
client return value unchanged to json.dumps — no element-wise, structured
export or attribute-mapping conversion is applied; an already-serializable
value prints as-is and any other value makes the dump raise a TypeError
that the generic handler reports as an error line. -/
theorem C2_amended_passthrough (env : Env) (parse : String → Except String PyVal)
    (fileContents name query tid : String)
    (task_id continued_task_id runtime_config_json : Option String)
    (timeout max_steps : Option Int) (verbose : Bool) (td v : PyVal)
    (hk : truthyStr env.apiKeyOpt = true) (hl : env.libAvailable = true) :
    (env.client.get_task_status tid = .ok v →
      (status env tid).outcome = echoJson v)
    ∧ (env.client.has_get_task_result = true →
      env.client.get_task_result tid = .ok v →
      (result env tid).outcome = echoJson v)
    ∧ (buildTaskData env parse name query task_id continued_task_id timeout max_steps
          runtime_config_json = .ok td →
      env.client.run_tasks_until_done td verbose = .ok v →
      (run env parse name query task_id continued_task_id timeout max_steps
          runtime_config_json verbose).outcome = echoJson v)
    ∧ (buildTaskData env parse name query task_id continued_task_id timeout max_steps
          runtime_config_json = .ok td →
      env.client.arun_tasks_until_done td verbose = .ok v →
      (async_run env parse name query task_id continued_task_id timeout max_steps
          runtime_config_json verbose).outcome = echoJson v)
    ∧ (parse fileContents = .ok td →
      env.client.run_tasks_until_done td verbose = .ok v →
      (run_batch env parse fileContents verbose).outcome = echoJson v)
    ∧ (parse fileContents = .ok td →
      env.client.arun_tasks_until_done td verbose = .ok v →
      (async_batch env parse fileContents verbose).outcome = echoJson v)
    ∧ (isJsonSerializable v = true → echoJson v = .stdoutJson v)
    ∧ (isJsonSerializable v = false →
      echoJson v = .stderrLine ("Error: " ++ dumpTypeError.message)) := by
  refine ⟨?_, ?_, ?_, ?_, ?_, ?_, ?_, ?_⟩
  · intro h
    simp [status, preamble, get_api_key, hk, hl, h]
  · intro hh h
    simp [result, preamble, get_api_key, hk, hl, hh, h]
  · intro hb h
    simp [run, preamble, get_api_key, hk, hl, hb, h]
  · intro hb h
    simp [async_run, preamble, get_api_key, hk, hl, hb, h]
  · intro hp h
    simp [run_batch, preamble, get_api_key, hk, hl, hp, h]
  · intro hp h
    simp [async_batch, preamble, get_api_key, hk, hl, hp, h]
  · intro h
    simp [echoJson, h]
  · intro h
    simp [echoJson, h, handle_http_error, extractStatus, dumpTypeError]

/-- Witness for C2 amended: a string result passes through unchanged. -/
theorem C2_amended_passthrough_witness :
    (status (mkEnv .absent (constClient (.str "ok"))) "t1").outcome
      = echoJson (.str "ok")
    ∧ echoJson (.str "ok") = .stdoutJson (.str "ok") := by
  have h := C2_amended_passthrough (mkEnv .absent (constClient (.str "ok")))
    parseUnused "file" "CROW" "q" "t1" none none none none none false
    .null (.str "ok") (by decide) rfl
  exact ⟨h.1 rfl, h.2.2.2.2.2.2.1 rfl⟩

/-- C3 counterexample: --timeout 0 is supplied on the command line, yet no
timeout field is included and runtime_config collapses to None: the flags
are tested for Python truthiness, so a supplied falsy value is dropped. -/
theorem C3_counterexample :
    buildRuntimeConfig parseUnused none none (some 0) none = .ok []
    ∧ buildTaskData (mkEnv .absent (constClient .null)) parseUnused "CROW" "q"
        none none (some 0) none none
      = .ok (.dict [("name", .str "CROW"), ("query", .str "q"), ("id", .null),
          ("runtime_config", .null)]) :=
  ⟨rfl, rfl⟩

/-- C3 amended: with no --runtime-config JSON, each optional field appears
in runtime_config exactly when its option is supplied with a Python-truthy
value (a zero timeout, a zero max-steps or an empty continued-task-id
counts as absent); when nothing contributes, the payload carries
runtime_config as None, never as an empty mapping. -/
theorem C3_amended_truthy_fields (parse : String → Except String PyVal)
    (ctid : Option String) (t ms : Option Int) (jn : PyVal) (q : String)
    (tidOpt : Option String) :
    ∃ rc, buildRuntimeConfig parse none ctid t ms = .ok rc
    ∧ getKey rc "continued_task_id"
      = (if truthyStr ctid then some (.str (ctid.getD "")) else none)
    ∧ getKey rc "timeout" = (if truthyInt t then some (.int (t.getD 0)) else none)
    ∧ getKey rc "max_steps" = (if truthyInt ms then some (.int (ms.getD 0)) else none)
    ∧ (truthyStr ctid = false → truthyInt t = false → truthyInt ms = false →
      lookupField (task_data jn q tidOpt rc) "runtime_config" = some .null) := by
  refine ⟨_, rfl, ?_, ?_, ?_, ?_⟩ <;>
    cases hc : truthyStr ctid <;> cases ht : truthyInt t <;> cases hm : truthyInt ms <;>
      simp [buildRuntimeConfig, hc, ht, hm, setKey, getKey, task_data, lookupField]

/-- Witness for C3 amended at concrete options: continued-task-id
supplied truthy, timeout supplied zero, max-steps omitted. -/
theorem C3_amended_truthy_fields_witness :
    ∃ rc, buildRuntimeConfig parseUnused none (some "prev") (some 0) none = .ok rc
    ∧ getKey rc "continued_task_id" = some (.str "prev")
    ∧ getKey rc "timeout" = none := by
  obtain ⟨rc, h1, h2, h3, _, _⟩ :=
    C3_amended_truthy_fields parseUnused (some "prev") (some 0) none
      (.str "CROW") "q" none
  refine ⟨rc, h1, ?_, ?_⟩
  · simpa using h2
  · simpa using h3

/-- C5 counterexample: a malformed batch file makes json.load raise the
undecorated decode exception — the outcome is not a click user-input
error — though the abort still happens before any network call. -/
theorem C5_counterexample :
    (run_batch (mkEnv .absent (constClient .null)) parseFailAlways "oops"
        false).outcome = .raised jsonErrMsg
    ∧ (run_batch (mkEnv .absent (constClient .null)) parseFailAlways "oops"
        false).outcome.isBadParameter = false
    ∧ (run_batch (mkEnv .absent (constClient .null)) parseFailAlways "oops"
        false).calls = [] :=
  ⟨rfl, rfl, rfl⟩

/-- C5 amended: malformed --runtime-config JSON raises a BadParameter
user-input error naming the option in create, run and arun; a malformed
batch file raises the decode exception uncaught in batch and abatch; in
every case the command aborts before any network call. -/
theorem C5_amended_abort_before_network (env : Env)
    (parse : String → Except String PyVal)
    (name query fileContents m rcJson : String)
    (task_id continued_task_id : Option String) (timeout max_steps : Option Int)
    (verbose : Bool)
    (hk : truthyStr env.apiKeyOpt = true) (hl : env.libAvailable = true)
    (hrc : truthyStr (some rcJson) = true) (hp : parse rcJson = .error m)
    (hpf : parse fileContents = .error m) :
    create env parse name query task_id continued_task_id timeout max_steps
        (some rcJson)
      = ⟨.badParameter ("Invalid JSON for runtime-config: " ++ m), true, []⟩
    ∧ run env parse name query task_id continued_task_id timeout max_steps
        (some rcJson) verbose
      = ⟨.badParameter ("Invalid JSON for runtime-config: " ++ m), true, []⟩
    ∧ async_run env parse name query task_id continued_task_id timeout max_steps
        (some rcJson) verbose
      = ⟨.badParameter ("Invalid JSON for runtime-config: " ++ m), true, []⟩
    ∧ run_batch env parse fileContents verbose = ⟨.raised m, true, []⟩
    ∧ async_batch env parse fileContents verbose = ⟨.raised m, true, []⟩ := by
  have hpre : preamble env = .ok env.client := by
    simp [preamble, get_api_key, hk, hl]
  refine ⟨?_, ?_, ?_, ?_, ?_⟩ <;>
    simp [create, run, async_run, run_batch, async_batch, hpre, buildTaskData,
      buildRuntimeConfig, stageOutcome, hrc, hp, hpf]

/-- Witness for C5 amended with an always-failing json.loads. -/
theorem C5_amended_abort_before_network_witness :
    create (mkEnv .absent (constClient .null)) parseFailAlways "CROW" "q" none none
        none none (some "not json")
      = ⟨.badParameter ("Invalid JSON for runtime-config: " ++ jsonErrMsg), true, []⟩
    ∧ run_batch (mkEnv .absent (constClient .null)) parseFailAlways "oops" false
      = ⟨.raised jsonErrMsg, true, []⟩ := by
  have h := C5_amended_abort_before_network (mkEnv .absent (constClient .null))
    parseFailAlways "CROW" "q" "oops" jsonErrMsg "not json" none none none none
    false (by decide) rfl (by decide) rfl rfl
  exact ⟨h.1, h.2.2.2.1⟩

/-- C7 counterexample: with a JobNames exposing from_string, resolution is
fully delegated: an unrecognized name can come back as a different member
(here CROW) instead of verbatim, and a from_string that raises aborts the
command locally with no network call, so the external service never gets
to reject the name. -/
theorem C7_counterexample :
    resolveJobName jnAllCrow "TOTALLY-UNKNOWN" = .ok (.str "CROW")
    ∧ buildTaskData (mkEnv jnAllCrow (constClient .null)) parseUnused
        "TOTALLY-UNKNOWN" "q" none none none none none
      = .ok (.dict [("name", .str "CROW"), ("query", .str "q"), ("id", .null),
          ("runtime_config", .null)])
    ∧ (create (mkEnv jnRaising (constClient .null)) parseUnused "TOTALLY-UNKNOWN"
        "q" none none none none none).outcome
      = .raised "Invalid job name TOTALLY-UNKNOWN"
    ∧ (create (mkEnv jnRaising (constClient .null)) parseUnused "TOTALLY-UNKNOWN"
        "q" none none none none none).calls = [] :=
  ⟨rfl, rfl, rfl, rfl⟩

/-- C7 amended: the agent name resolves against the enumeration only when
no from-string resolver exists: then member names map to their enum values
and unrecognized names pass through verbatim (likewise when the
enumeration is unavailable); when from_string exists, resolution is
delegated entirely to it. -/
theorem C7_amended_resolution (members : List (String × PyVal)) (name : String)
    (fs : String → Except String PyVal) (v : PyVal) :
    resolveJobName .absent name = .ok (.str name)
    ∧ (getKey members name = none →
      resolveJobName (.enumOnly members) name = .ok (.str name))
    ∧ (getKey members name = some v →
      resolveJobName (.enumOnly members) name = .ok v)
    ∧ resolveJobName (.withFromString fs) name = fs name := by
  refine ⟨rfl, ?_, ?_, rfl⟩ <;> intro h <;> simp [resolveJobName, h]

/-- Witness for C7 amended on a one-member enumeration without
from_string. -/
theorem C7_amended_resolution_witness :
    resolveJobName (.enumOnly [("CROW", .str "JobNames.CROW")]) "OWL"
      = .ok (.str "OWL")
    ∧ resolveJobName (.enumOnly [("CROW", .str "JobNames.CROW")]) "CROW"
      = .ok (.str "JobNames.CROW") := by
  have h := C7_amended_resolution [("CROW", .str "JobNames.CROW")] "OWL"
    (fun n => .ok (.str n)) (.str "JobNames.CROW")
  have h2 := C7_amended_resolution [("CROW", .str "JobNames.CROW")] "CROW"
    (fun n => .ok (.str n)) (.str "JobNames.CROW")
  exact ⟨h.2.1 rfl, h2.2.2.1 rfl⟩

/-- C9 counterexample: --runtime-config binds timeout to 5 and --timeout 0
is supplied; the individual option is falsy, so it does not overwrite and
the JSON value 5 survives in the constructed runtime_config. -/
theorem C9_counterexample :
    buildRuntimeConfig parseTimeout5 (some "cfg") none (some 0) none
      = .ok [("timeout", .int 5)] :=
  rfl

/-- C9 amended: an individual option supplied with a Python-truthy value
is written after the --runtime-config JSON has been merged, so it
overwrites any same-named JSON key; a falsy supplied value (zero or empty)
leaves the JSON value in place. -/
theorem C9_amended_truthy_overwrite (parse : String → Except String PyVal)
    (s : String) (ctid : Option String) (t ms : Option Int)
    (fs : List (String × PyVal))
    (hs : truthyStr (some s) = true) (hp : parse s = .ok (.dict fs))
    (hc : truthyStr ctid = true) (ht : truthyInt t = true)
    (hm : truthyInt ms = true) :
    ∃ rc, buildRuntimeConfig parse (some s) ctid t ms = .ok rc
    ∧ getKey rc "continued_task_id" = some (.str (ctid.getD ""))
    ∧ getKey rc "timeout" = some (.int (t.getD 0))
    ∧ getKey rc "max_steps" = some (.int (ms.getD 0)) := by
  have hstep : buildRuntimeConfig parse (some s) ctid t ms
      = .ok (setKey (setKey (setKey (dictMerge [] fs) "continued_task_id"
          (.str (ctid.getD ""))) "timeout" (.int (t.getD 0))) "max_steps"
          (.int (ms.getD 0))) := by
    simp [buildRuntimeConfig, hs, hp, hc, ht, hm]
  refine ⟨_, hstep, ?_, ?_, ?_⟩
  · rw [getKey_setKey_other _ _ _ _ (by decide),
      getKey_setKey_other _ _ _ _ (by decide), getKey_setKey_self]
  · rw [getKey_setKey_other _ _ _ _ (by decide), getKey_setKey_self]
  · rw [getKey_setKey_self]

/-- Witness for C9 amended: --runtime-config binds timeout to 5 and a
truthy --timeout 30 overwrites it. -/
theorem C9_amended_truthy_overwrite_witness :
    ∃ rc, buildRuntimeConfig parseTimeout5 (some "cfg") (some "prev") (some 30)
        (some 7) = .ok rc
    ∧ getKey rc "timeout" = some (.int 30) := by
  obtain ⟨rc, h1, _, h3, _⟩ :=
    C9_amended_truthy_overwrite parseTimeout5 "cfg" (some "prev") (some 30) (some 7)
      [("timeout", .int 5)] (by decide) rfl (by decide) (by decide) (by decide)
  exact ⟨rc, h1, h3⟩

end Cli
